import Mathlib

/-!
A shallow embedding of the rule-evaluation layer of the March-Madness
statistics project (file `analysis.py` of the repository).

Python values that can appear in a cell of the input table, or inside a
parsed roster literal, are modelled by `PyVal`; the Python exceptions that
the code raises or catches are modelled by `PyErr`; every fallible Python
operation is translated to a function into `Except PyErr`.

Modelling notes, fixed once for the whole file:
  - machine integers are `Int`/`Nat` (Python integers are unbounded, so no
    wrap-around is involved);
  - `float(s) > 15` on a decimal literal `s` is modelled as the exact
    comparison of the decimal value with 15 (scaled-integer comparison);
    the two agree on every decimal literal short enough for the float
    mantissa, which covers the data this program consumes;
  - `ast.literal_eval` is modelled by the recursive-descent parser
    `parseVal` over the literal grammar the roster column actually uses:
    `None`/`True`/`False`, signed decimal integers, quoted strings with
    the usual backslash escapes, lists, tuples (modelled as lists, since
    the code only takes `len`, slices and iterates), parenthesised
    values, and dicts with string keys.  Float/complex/hex literals,
    sets, dicts with non-string keys and adjacent-string concatenation
    are outside the modelled grammar and count as parse failures;
  - `ast.literal_eval` failures on a string are `ValueError`/`SyntaxError`,
    exactly the exceptions `parse_roster` catches, so `parse_roster` is a
    total function in the model;
  - `int(s)` is modelled as: strip ASCII whitespace, optional single
    sign, one or more decimal digits (underscore grouping and non-ASCII
    digits are outside the model);
  - a missing CSV cell is the pandas float `nan`, modelled by `PyVal.vNan`
    (`int(nan)` raises `ValueError`, `bool(nan)` is `True`);
  - pandas Series label lookup `row[key]` raises `KeyError` when the
    label is absent; labels are assumed unique, as produced by the
    collector.
-/

namespace MarchMadness

/-- The Python exceptions relevant to `analysis.py`. -/
inductive PyErr where
  | valueError
  | keyError
  | typeError
  | attributeError
deriving DecidableEq

/-- Python values that can appear in a row cell or inside a parsed
roster literal. -/
inductive PyVal where
  | vStr  : String → PyVal
  | vInt  : Int → PyVal
  | vBool : Bool → PyVal
  | vNone : PyVal
  | vNan  : PyVal
  | vList : List PyVal → PyVal
  | vDict : List (String × PyVal) → PyVal

/-- Python truthiness (`bool(v)`). -/
def pyTruthy : PyVal → Bool
  | .vStr s  => !s.data.isEmpty
  | .vInt n  => decide (n ≠ 0)
  | .vBool b => b
  | .vNone   => false
  | .vNan    => true
  | .vList l => !l.isEmpty
  | .vDict d => !d.isEmpty

/-- Lookup in a (deduplicated) Python dict with string keys. -/
def dictFind (d : List (String × PyVal)) (k : String) : Option PyVal :=
  (d.find? (fun kv => decide (kv.1 = k))).map (fun kv => kv.2)

/-- Python `v == s` against a string constant: only equal when `v` is
that string (no other modelled value compares equal to a `str`). -/
def isStrVal (v : PyVal) (s : String) : Bool :=
  match v with
  | .vStr t => decide (t = s)
  | _ => false

/-- Python `p.get(k, dflt)`: dict lookup with a default; any non-dict
value has no `get` attribute, hence `AttributeError`. -/
def pyGet (p : PyVal) (k : String) (dflt : PyVal) : Except PyErr PyVal :=
  match p with
  | .vDict d => .ok ((dictFind d k).getD dflt)
  | _ => .error .attributeError

/-- Python `len(v)`: defined on strings, lists and dicts; `TypeError`
otherwise (in particular on `int`, which is how a roster literal that
evaluates to a number crashes the roster predicates). -/
def pyLen : PyVal → Except PyErr Nat
  | .vStr s  => .ok s.data.length
  | .vList l => .ok l.length
  | .vDict d => .ok d.length
  | _ => .error .typeError

/-- Python `v[:5]`: slicing is defined on strings and lists; a dict (or
any other modelled value) raises `TypeError`. -/
def pySlice5 : PyVal → Except PyErr PyVal
  | .vStr s  => .ok (.vStr (String.mk (s.data.take 5)))
  | .vList l => .ok (.vList (l.take 5))
  | _ => .error .typeError

/-- Python iteration `for x in v`: a string yields its characters as
one-character strings, a list its elements, a dict its keys. -/
def pyIter : PyVal → Except PyErr (List PyVal)
  | .vStr s  => .ok (s.data.map (fun c => .vStr (String.mk [c])))
  | .vList l => .ok l
  | .vDict d => .ok (d.map (fun kv => .vStr kv.1))
  | _ => .error .typeError

/-- ASCII whitespace, as both `int()` stripping and the regex class
`\s` treat it (space, tab, newline, carriage return, vertical tab,
form feed). -/
def isSpaceB (c : Char) : Bool :=
  c.toNat = 32 || c.toNat = 9 || c.toNat = 10 || c.toNat = 13 ||
    c.toNat = 11 || c.toNat = 12

/-- Value of a list of decimal digit characters (most significant
first). -/
def natOfDigits : List Char → Nat
  | [] => 0
  | c :: cs => (c.toNat - 48) * 10 ^ cs.length + natOfDigits cs

/-- Parse a nonempty all-digit character list. -/
def digitsToNat? (cs : List Char) : Option Nat :=
  if !cs.isEmpty && cs.all Char.isDigit then some (natOfDigits cs) else none

/-- Strip leading and trailing whitespace. -/
def stripWs (cs : List Char) : List Char :=
  ((cs.dropWhile isSpaceB).reverse.dropWhile isSpaceB).reverse

/-- Python `int(s)` on a string: strip whitespace, optional single sign,
one or more decimal digits. -/
def intOfString? (cs : List Char) : Option Int :=
  match stripWs cs with
  | [] => none
  | c :: rest =>
    if c = '-' then (digitsToNat? rest).map (fun n => -(n : Int))
    else if c = '+' then (digitsToNat? rest).map (fun n => (n : Int))
    else (digitsToNat? (c :: rest)).map (fun n => (n : Int))

/-- Python `int(v)`: strings are parsed, ints pass through, bools map to
0/1, `nan` raises `ValueError`, everything else raises `TypeError`. -/
def pyInt : PyVal → Except PyErr Int
  | .vStr s  =>
    match intOfString? s.data with
    | some n => .ok n
    | none => .error .valueError
  | .vInt n  => .ok n
  | .vBool b => .ok (if b then 1 else 0)
  | .vNan    => .error .valueError
  | .vNone   => .error .typeError
  | .vList _ => .error .typeError
  | .vDict _ => .error .typeError

/-- Drop leading whitespace. -/
def skipWsL (cs : List Char) : List Char := cs.dropWhile isSpaceB

/-- Scan the body of a Python string literal opened with the quote
character of code `q` (39 or 34), processing the usual backslash
escapes and keeping unknown escapes verbatim, as Python does. -/
def scanStr (q : Nat) : Nat → List Char → Option (List Char × List Char)
  | 0, _ => none
  | _, [] => none
  | fuel+1, c :: cs =>
    if c.toNat = q then some ([], cs)
    else if c.toNat = 92 then
      match cs with
      | [] => none
      | e :: cs2 =>
        let mapped : List Char :=
          if e.toNat = 110 then [Char.ofNat 10]
          else if e.toNat = 116 then [Char.ofNat 9]
          else if e.toNat = 114 then [Char.ofNat 13]
          else if e.toNat = 92 then [Char.ofNat 92]
          else if e.toNat = 39 then [Char.ofNat 39]
          else if e.toNat = 34 then [Char.ofNat 34]
          else [Char.ofNat 92, e]
        match scanStr q fuel cs2 with
        | some (body, rest) => some (mapped ++ body, rest)
        | none => none
    else
      match scanStr q fuel cs with
      | some (body, rest) => some (c :: body, rest)
      | none => none

/-- Insert a key/value pair into a dict, replacing the value of an
existing equal key (Python dict construction keeps the last value). -/
def dictUpsert (d : List (String × PyVal)) (k : String) (v : PyVal) :
    List (String × PyVal) :=
  match d with
  | [] => [(k, v)]
  | (k0, v0) :: rest =>
    if k0 = k then (k0, v) :: rest else (k0, v0) :: dictUpsert rest k v

/-- Build a Python dict from parsed pairs, deduplicating keys. -/
def buildDict (ps : List (String × PyVal)) : List (String × PyVal) :=
  ps.foldl (fun d kv => dictUpsert d kv.1 kv.2) []

/-- Recognise a keyword prefix. -/
def keyword (kw : List Char) (cs : List Char) : Option (List Char) :=
  if kw.isPrefixOf cs then some (cs.drop kw.length) else none

mutual

/-- One literal value of the modelled `ast.literal_eval` grammar.
Fuel-driven recursive descent; `evalLiteral` supplies ample fuel, so
running out of fuel only happens past the end of the input. -/
def parseVal : Nat → List Char → Option (PyVal × List Char)
  | 0, _ => none
  | fuel+1, cs0 =>
    match skipWsL cs0 with
    | [] => none
    | c :: rest =>
      if c = '[' then
        match parseItems fuel rest ']' with
        | some (vs, rest2) => some (.vList vs, rest2)
        | none => none
      else if c = '(' then
        match skipWsL rest with
        | [] => none
        | d :: rest1 =>
          if d = ')' then some (.vList [], rest1)
          else
            match parseVal fuel (d :: rest1) with
            | some (v, cs2) =>
              match skipWsL cs2 with
              | [] => none
              | e :: rest3 =>
                if e = ')' then some (v, rest3)
                else if e = ',' then
                  match parseItems fuel rest3 ')' with
                  | some (vs, rest4) => some (.vList (v :: vs), rest4)
                  | none => none
                else none
            | none => none
      else if c = '{' then
        match parseDict fuel rest with
        | some (ps, rest2) => some (.vDict (buildDict ps), rest2)
        | none => none
      else if c.toNat = 39 || c.toNat = 34 then
        match scanStr c.toNat fuel rest with
        | some (body, rest2) => some (.vStr (String.mk body), rest2)
        | none => none
      else if c = '-' || c = '+' then
        let cs1 := skipWsL rest
        let ds := cs1.takeWhile Char.isDigit
        if ds.isEmpty then none
        else
          let n : Int := natOfDigits ds
          some (.vInt (if c = '-' then -n else n), cs1.dropWhile Char.isDigit)
      else if c.isDigit then
        let ds := (c :: rest).takeWhile Char.isDigit
        some (.vInt (natOfDigits ds), (c :: rest).dropWhile Char.isDigit)
      else
        match keyword ['N', 'o', 'n', 'e'] (c :: rest) with
        | some rest2 => some (.vNone, rest2)
        | none =>
          match keyword ['T', 'r', 'u', 'e'] (c :: rest) with
          | some rest2 => some (.vBool true, rest2)
          | none =>
            match keyword ['F', 'a', 'l', 's', 'e'] (c :: rest) with
            | some rest2 => some (.vBool false, rest2)
            | none => none

/-- Comma-separated values up to a closing bracket (trailing comma
allowed, as in Python). -/
def parseItems : Nat → List Char → Char → Option (List PyVal × List Char)
  | 0, _, _ => none
  | fuel+1, cs0, close =>
    match skipWsL cs0 with
    | [] => none
    | c :: rest =>
      if c = close then some ([], rest)
      else
        match parseVal fuel (c :: rest) with
        | none => none
        | some (v, cs2) =>
          match skipWsL cs2 with
          | [] => none
          | d :: rest3 =>
            if d = close then some ([v], rest3)
            else if d = ',' then
              match parseItems fuel rest3 close with
              | some (vs, rest4) => some (v :: vs, rest4)
              | none => none
            else none

/-- Comma-separated `key : value` pairs up to a closing brace; keys must
be string literals in the modelled grammar. -/
def parseDict : Nat → List Char → Option (List (String × PyVal) × List Char)
  | 0, _ => none
  | fuel+1, cs0 =>
    match skipWsL cs0 with
    | [] => none
    | c :: rest =>
      if c = '}' then some ([], rest)
      else
        match parseVal fuel (c :: rest) with
        | some (.vStr k, cs2) =>
          match skipWsL cs2 with
          | [] => none
          | d :: rest2 =>
            if d = ':' then
              match parseVal fuel rest2 with
              | some (v, cs3) =>
                match skipWsL cs3 with
                | [] => none
                | e :: rest3 =>
                  if e = '}' then some ([(k, v)], rest3)
                  else if e = ',' then
                    match parseDict fuel rest3 with
                    | some (ps, rest4) => some ((k, v) :: ps, rest4)
                    | none => none
                  else none
              | none => none
            else none
        | _ => none

end

/-- `ast.literal_eval` on a string: parse one literal and require only
whitespace to remain.  `none` stands for the `ValueError`/`SyntaxError`
failures of the Python function. -/
def evalLiteral (s : String) : Option PyVal :=
  match parseVal (2 * s.data.length + 2) s.data with
  | some (v, rest) => if (skipWsL rest).isEmpty then some v else none
  | none => none

/-- `parse_roster` from `analysis.py`: a string is handed to
`ast.literal_eval`, whose failures (`ValueError`, `SyntaxError`) are
caught and turned into the empty list; any non-string input is passed
through unchanged.  Note that a successfully parsed literal is returned
whatever its shape: no check that it is a list of dicts is performed. -/
def parse_roster : PyVal → PyVal
  | .vStr s =>
    match evalLiteral s with
    | some v => v
    | none => .vList []
  | v => v

/-- A row of the input table: association list from column label to cell
value (labels unique, as pandas provides). -/
abbrev Row : Type := List (String × PyVal)

/-- Pandas label lookup `row[key]`: `KeyError` when the label is absent. -/
def rowGet (row : Row) (key : String) : Except PyErr PyVal :=
  match row.find? (fun kv => decide (kv.1 = key)) with
  | some kv => .ok kv.2
  | none => .error .keyError

/-- The `try ... except (E1, E2): return False` wrapper every predicate
in `analysis.py` uses: listed exceptions degrade to `False`, any other
exception propagates. -/
def tryFalse (errs : List PyErr) (x : Except PyErr Bool) : Except PyErr Bool :=
  match x with
  | .ok b => .ok b
  | .error e => if errs.contains e then .ok false else .error e

/-- Shared shape of the seven `rank <= 50` predicates: read the named
cell, convert with `int`, compare; `ValueError`/`KeyError` yield
`False`. -/
def rankAtMost50 (field : String) (row : Row) : Except PyErr Bool :=
  tryFalse [.valueError, .keyError] (do
    let v ← rowGet row field
    let n ← pyInt v
    pure (decide (n ≤ 50)))

/-- `is_good_scoring_team`: top 50 in points per game. -/
def is_good_scoring_team : Row → Except PyErr Bool := rankAtMost50 "PTS Rank"

/-- `forces_turnovers`: top 50 in opponent turnovers. -/
def forces_turnovers : Row → Except PyErr Bool :=
  rankAtMost50 "Opponent TOV Rank"

/-- `high_volume_three_point_team`: top 50 in 3PT made per game. -/
def high_volume_three_point_team : Row → Except PyErr Bool :=
  rankAtMost50 "3P Rank"

/-- `elite_offensive_rebounding`: top 50 in offensive rebounds. -/
def elite_offensive_rebounding : Row → Except PyErr Bool :=
  rankAtMost50 "ORB Rank"

/-- `good_defense`: top 50 in opponent points per game. -/
def good_defense : Row → Except PyErr Bool := rankAtMost50 "Opponent PTS Rank"

/-- `defends_three_point`: top 50 in opponent 3P percentage. -/
def defends_three_point : Row → Except PyErr Bool :=
  rankAtMost50 "Opponent 3P% Rank"

/-- `good_free_throw_team`: top 50 in FT percentage. -/
def good_free_throw_team : Row → Except PyErr Bool := rankAtMost50 "FT% Rank"

/-- `protects_basketball`: the inverted rank comparison, `rank >= 300`
on the team's own turnover rank (a high turnover rank means few
turnovers). -/
def protects_basketball (row : Row) : Except PyErr Bool :=
  tryFalse [.valueError, .keyError] (do
    let v ← rowGet row "TOV Rank"
    let n ← pyInt v
    pure (decide (300 ≤ n)))

/-- The exceptions the four roster predicates catch: `KeyError` and
`AttributeError` (note: not `TypeError`). -/
def rosterErrs : List PyErr := [.keyError, .attributeError]

/-- The prologue every roster predicate repeats verbatim in the source:
parse the roster cell, return `False` on a falsy or short roster, slice
the first five entries, iterate, and run the per-predicate loop; only
`KeyError`/`AttributeError` are caught. -/
def rosterPred (body : List PyVal → Except PyErr Bool) (row : Row) :
    Except PyErr Bool :=
  tryFalse rosterErrs (do
    let rv ← rowGet row "roster"
    let roster := parse_roster rv
    if !pyTruthy roster then pure false
    else do
      let n ← pyLen roster
      if n < 5 then pure false
      else do
        let t5 ← pySlice5 roster
        let players ← pyIter t5
        body players)

/-- `sum(1 for player in top_5 if player.get('class', '') in cs)`. -/
def countClass (cs : List String) : List PyVal → Except PyErr Nat
  | [] => .ok 0
  | p :: ps => do
    let c ← pyGet p "class" (.vStr "")
    let rest ← countClass cs ps
    pure (rest + if cs.any (fun s => isStrVal c s) then 1 else 0)

/-- Loop of `has_experienced_core`: more JR/SR than FR/SO among the
first five. -/
def expCoreBody (top5 : List PyVal) : Except PyErr Bool := do
  let upper ← countClass ["JR", "SR"] top5
  let lower ← countClass ["FR", "SO"] top5
  pure (decide (lower < upper))

/-- Leading digits of a string, as matched by the pattern of one or
more digits anchored at the start. -/
def leadingNat? (cs : List Char) : Option Nat :=
  let ds := cs.takeWhile Char.isDigit
  if ds.isEmpty then none else some (natOfDigits ds)

/-- `re.match` of the leading-digits pattern: matching a non-string
raises `TypeError` (which the roster predicates do not catch). -/
def reLeadingNat (v : PyVal) : Except PyErr (Option Nat) :=
  match v with
  | .vStr s => .ok (leadingNat? s.data)
  | _ => .error .typeError

/-- Loop body of `has_top_recruits`: count entries whose `rsci_rank`
has a leading number at most 100. -/
def recruitCount : List PyVal → Except PyErr Nat
  | [] => .ok 0
  | p :: ps => do
    let r ← pyGet p "rsci_rank" (.vStr "")
    let m ← reLeadingNat r
    let hit :=
      match m with
      | some n => decide (n ≤ 100)
      | none => false
    let rest ← recruitCount ps
    pure (rest + if hit then 1 else 0)

/-- `has_top_recruits` loop: at least two top-100 recruits. -/
def topRecruitsBody (top5 : List PyVal) : Except PyErr Bool := do
  let c ← recruitCount top5
  pure (decide (2 ≤ c))

/-- Membership of `player.get('pos', '')` in `['G', 'PG', 'SG']`. -/
def isGuardStr (v : PyVal) : Bool :=
  isStrVal v "G" || isStrVal v "PG" || isStrVal v "SG"

/-- The points comparison `float(m.group(1)) > 15` on the matched
decimal `ip.frac` (with `k` fractional digits), as an exact scaled
integer comparison. -/
def ptsGt15 (ip : Nat) (frac : Nat) (k : Nat) : Bool :=
  decide (15 * 10 ^ k < ip * 10 ^ k + frac)

/-- The anchored match of one-or-more digits, an optional dot, further
digits, optional whitespace and the token `Pts`; returns the integer
digits value, the fractional digits value and the number of fractional
digits. -/
def ptsMatch (cs : List Char) : Option (Nat × Nat × Nat) :=
  let ds := cs.takeWhile Char.isDigit
  if ds.isEmpty then none
  else
    let rest := cs.dropWhile Char.isDigit
    let fr :=
      match rest with
      | c :: cs2 =>
        if c = '.' then (cs2.takeWhile Char.isDigit, cs2.dropWhile Char.isDigit)
        else (([] : List Char), rest)
      | [] => (([] : List Char), rest)
    let rest3 := (fr.2).dropWhile isSpaceB
    if List.isPrefixOf ['P', 't', 's'] rest3 then
      some (natOfDigits ds, natOfDigits fr.1, (fr.1).length)
    else none

/-- `re.match` of the points pattern: matching a non-string raises
`TypeError`. -/
def rePtsMatch (v : PyVal) : Except PyErr (Option (Nat × Nat × Nat)) :=
  match v with
  | .vStr s => .ok (ptsMatch s.data)
  | _ => .error .typeError

/-- Loop of `has_scoring_guard`: return `True` at the first guard among
the first five whose truthy `stats_summary` matches a points figure
above 15. -/
def scoringGuardLoop : List PyVal → Except PyErr Bool
  | [] => .ok false
  | p :: ps => do
    let pos ← pyGet p "pos" (.vStr "")
    if isGuardStr pos then do
      let summary ← pyGet p "stats_summary" (.vStr "")
      if pyTruthy summary then do
        let m ← rePtsMatch summary
        match m with
        | some (ip, frac, k) =>
          if ptsGt15 ip frac k then pure true else scoringGuardLoop ps
        | none => scoringGuardLoop ps
      else scoringGuardLoop ps
    else scoringGuardLoop ps

/-- Python `s.split('-')`. -/
def splitOnDash : List Char → List (List Char)
  | [] => [[]]
  | c :: cs =>
    if c = '-' then [] :: splitOnDash cs
    else
      match splitOnDash cs with
      | h :: t => (c :: h) :: t
      | [] => [[c]]

/-- `feet, inches = map(int, height.split('-'))` followed by
`feet * 12 + inches`: any wrong part count or failed `int` is a
`ValueError`. -/
def heightParse? (cs : List Char) : Option Int :=
  match splitOnDash cs with
  | [a, b] =>
    match intOfString? a, intOfString? b with
    | some f, some i => some (f * 12 + i)
    | _, _ => none
  | _ => none

/-- The inner height conversion of `has_size`: splitting a non-string
raises `AttributeError` (no `split` method); a failed split or parse
raises `ValueError`, which the inner `except ValueError: continue`
catches. -/
def heightInches (v : PyVal) : Except PyErr Int :=
  match v with
  | .vStr s =>
    match heightParse? s.data with
    | some t => .ok t
    | none => .error .valueError
  | _ => .error .attributeError

/-- Loop of `has_size`: count first-five entries of height at least 78
inches, skipping (inner `except ValueError`) entries whose height fails
to parse. -/
def sizeCount : List PyVal → Except PyErr Nat
  | [] => .ok 0
  | p :: ps => do
    let h ← pyGet p "height" (.vStr "")
    let inc ←
      if pyTruthy h then
        match heightInches h with
        | .ok t => pure (if (78 : Int) ≤ t then (1 : Nat) else 0)
        | .error .valueError => pure 0
        | .error e => Except.error e
      else pure 0
    let rest ← sizeCount ps
    pure (rest + inc)

/-- `has_size` loop: at least three tall entries among the first five. -/
def sizeBody (top5 : List PyVal) : Except PyErr Bool := do
  let c ← sizeCount top5
  pure (decide (3 ≤ c))

/-- `has_experienced_core` from `analysis.py`. -/
def has_experienced_core : Row → Except PyErr Bool := rosterPred expCoreBody

/-- `has_top_recruits` from `analysis.py`. -/
def has_top_recruits : Row → Except PyErr Bool := rosterPred topRecruitsBody

/-- `has_scoring_guard` from `analysis.py`. -/
def has_scoring_guard : Row → Except PyErr Bool := rosterPred scoringGuardLoop

/-- `has_size` from `analysis.py`. -/
def has_size : Row → Except PyErr Bool := rosterPred sizeBody

/-- The registry `ANALYSIS_FUNCTIONS`, in source (insertion) order. -/
def ANALYSIS_FUNCTIONS : List (String × (Row → Except PyErr Bool)) :=
  [("Can Score", is_good_scoring_team),
   ("Forces Turnovers", forces_turnovers),
   ("Protects the Ball", protects_basketball),
   ("High Volume 3PT Team", high_volume_three_point_team),
   ("Elite Offensive Rebounding", elite_offensive_rebounding),
   ("Good Defense", good_defense),
   ("Defends Three Point", defends_three_point),
   ("Good Free Throw Team", good_free_throw_team),
   ("Experienced Core", has_experienced_core),
   ("Multiple Top Recruits", has_top_recruits),
   ("Has Scoring Guard", has_scoring_guard),
   ("Has Size", has_size)]

/-- One output row of `analyze_teams`: the carried-through key columns
and the Yes/No answer per registry entry (in registry order). -/
structure OutRow where
  year : PyVal
  team : PyVal
  answers : List (String × String)

/-- The `{True: 'Yes', False: 'No'}` mapping. -/
def yesNo (b : Bool) : String := if b then "Yes" else "No"

/-- `analyze_teams` from `analysis.py`: select `year`/`team`, apply each
registry function down the whole table (function-major order, as
`DataFrame.apply` does per column), map booleans to Yes/No, and
assemble the output rows.  An uncaught exception from any predicate on
any row propagates and no table is produced. -/
def analyze_teams (df : List Row) : Except PyErr (List OutRow) := do
  let base ← df.mapM (fun row => do
    let y ← rowGet row "year"
    let t ← rowGet row "team"
    pure (y, t))
  let cols ← ANALYSIS_FUNCTIONS.mapM (fun nf => do
    let vs ← df.mapM nf.2
    pure (nf.1, vs.map yesNo))
  pure ((List.range df.length).map (fun i =>
    { year := (base.getD i (.vNone, .vNone)).1,
      team := (base.getD i (.vNone, .vNone)).2,
      answers := cols.map (fun c => (c.1, (c.2).getD i "No")) }))

/-! Spec-side notions and supporting lemmas. -/

/-- A cell shape the engine's rank predicates are total on: a string or
the pandas missing-value `nan` — exactly what reading the CSV table
produces. -/
def cellOkB : PyVal → Bool
  | .vStr _ => true
  | .vNan => true
  | _ => false

/-- The named cell of the row, if present, is a string or `nan`. -/
def cellRowOkB (row : Row) (f : String) : Bool :=
  match rowGet row f with
  | .ok v => cellOkB v
  | .error _ => true

/-- The named rank cell is present, is a string, parses as an integer,
and that integer is at most 50. -/
def RankAtMost50Hit (row : Row) (f : String) : Prop :=
  ∃ s n, rowGet row f = .ok (.vStr s) ∧ intOfString? s.data = some n ∧ n ≤ 50

/-- The own-turnover rank cell is present, is a string, parses as an
integer, and that integer is at least 300. -/
def TovAtLeast300Hit (row : Row) : Prop :=
  ∃ s n, rowGet row "TOV Rank" = .ok (.vStr s) ∧
    intOfString? s.data = some n ∧ 300 ≤ n

lemma bind_ok_except {α β : Type} (a : α) (f : α → Except PyErr β) :
    (Except.ok a >>= f) = f a := rfl

lemma bind_error_except {α β : Type} (e : PyErr) (f : α → Except PyErr β) :
    ((Except.error e : Except PyErr α) >>= f) = .error e := rfl

lemma pure_ok_except {α : Type} (a : α) : (pure a : Except PyErr α) = .ok a := rfl

lemma rowGet_error {row : Row} {key : String} {e : PyErr}
    (h : rowGet row key = .error e) : e = .keyError := by
  unfold rowGet at h
  cases hf : row.find? (fun kv => decide (kv.1 = key)) with
  | none => rw [hf] at h; injection h with h1; exact h1.symm
  | some kv => rw [hf] at h; exact Except.noConfusion h

lemma cellRowOk_ok {row : Row} {f : String} (h : cellRowOkB row f = true)
    {v : PyVal} (hg : rowGet row f = .ok v) : cellOkB v = true := by
  unfold cellRowOkB at h
  rw [hg] at h
  exact h

/-- Behaviour of the shared `int(row[field])`-comparison shape of the
eight rank predicates, on any cell that is a string, `nan`, or absent:
the result is a definite boolean, true exactly when the cell is a
string that parses to an integer satisfying the comparison. -/
lemma rankShape_spec (x : Except PyErr PyVal) (cmp : Int → Bool)
    (hx : ∀ e, x = .error e → e = PyErr.keyError)
    (hv : ∀ v, x = .ok v → cellOkB v = true) :
    ∃ b, tryFalse [.valueError, .keyError]
        (do
          let v ← x
          let n ← pyInt v
          pure (cmp n)) = .ok b ∧
      (b = true ↔ ∃ s n, x = .ok (.vStr s) ∧ intOfString? s.data = some n ∧
        cmp n = true) := by
  cases x with
  | error e =>
    have he := hx e rfl
    subst he
    exact ⟨false, by simp [bind_error_except, tryFalse], by simp⟩
  | ok v =>
    have hcv := hv v rfl
    cases v with
    | vStr s =>
      cases hi : intOfString? s.data with
      | none =>
        refine ⟨false, ?_, ?_⟩
        · simp [bind_ok_except, pyInt, hi, tryFalse]
        · simp [hi]
      | some n =>
        refine ⟨cmp n, ?_, ?_⟩
        · simp [bind_ok_except, pyInt, hi, tryFalse, pure_ok_except]
        · constructor
          · intro hb
            exact ⟨s, n, rfl, hi, hb⟩
          · rintro ⟨s2, n2, hs2, hi2, hc2⟩
            injection hs2 with hs3
            injection hs3 with hs4
            subst hs4
            rw [hi] at hi2
            injection hi2 with hn2
            subst hn2
            exact hc2
    | vNan => exact ⟨false, by simp [bind_ok_except, pyInt, tryFalse], by simp⟩
    | vInt n => simp [cellOkB] at hcv
    | vBool b => simp [cellOkB] at hcv
    | vNone => simp [cellOkB] at hcv
    | vList l => simp [cellOkB] at hcv
    | vDict d => simp [cellOkB] at hcv

/-- `rankAtMost50` on a CSV-shaped cell: total, true exactly on a
present integer-parsing string of value at most 50. -/
lemma rank50_spec (f : String) (row : Row) (h : cellRowOkB row f = true) :
    ∃ b, rankAtMost50 f row = .ok b ∧ (b = true ↔ RankAtMost50Hit row f) := by
  obtain ⟨b, hb, hiff⟩ :=
    rankShape_spec (rowGet row f) (fun n => decide (n ≤ 50))
      (fun e he => rowGet_error he) (fun v hv => cellRowOk_ok h hv)
  refine ⟨b, hb, ?_⟩
  rw [hiff]
  unfold RankAtMost50Hit
  simp

/-- `protects_basketball` on a CSV-shaped cell: total, true exactly on
a present integer-parsing string of value at least 300. -/
lemma protects_spec (row : Row) (h : cellRowOkB row "TOV Rank" = true) :
    ∃ b, protects_basketball row = .ok b ∧ (b = true ↔ TovAtLeast300Hit row) := by
  obtain ⟨b, hb, hiff⟩ :=
    rankShape_spec (rowGet row "TOV Rank") (fun n => decide (300 ≤ n))
      (fun e he => rowGet_error he) (fun v hv => cellRowOk_ok h hv)
  refine ⟨b, hb, ?_⟩
  rw [hiff]
  unfold TovAtLeast300Hit
  simp

/-- Claim C4: on any row whose named cell is a string, `nan`, or absent
(the shapes a CSV-read table produces), each of the seven rank-threshold
predicates other than Protects the Ball returns a definite boolean that
is true exactly when its named rank field is present and parses as an
integer at most 50; in particular rank "50" answers true, "51" false,
an unparsable "abc" false, and an absent field false. -/
theorem rank_thresholds_C4 (row : Row)
    (h1 : cellRowOkB row "PTS Rank" = true)
    (h2 : cellRowOkB row "Opponent TOV Rank" = true)
    (h3 : cellRowOkB row "3P Rank" = true)
    (h4 : cellRowOkB row "ORB Rank" = true)
    (h5 : cellRowOkB row "Opponent PTS Rank" = true)
    (h6 : cellRowOkB row "Opponent 3P% Rank" = true)
    (h7 : cellRowOkB row "FT% Rank" = true) :
    (∃ b, is_good_scoring_team row = .ok b ∧
      (b = true ↔ RankAtMost50Hit row "PTS Rank")) ∧
    (∃ b, forces_turnovers row = .ok b ∧
      (b = true ↔ RankAtMost50Hit row "Opponent TOV Rank")) ∧
    (∃ b, high_volume_three_point_team row = .ok b ∧
      (b = true ↔ RankAtMost50Hit row "3P Rank")) ∧
    (∃ b, elite_offensive_rebounding row = .ok b ∧
      (b = true ↔ RankAtMost50Hit row "ORB Rank")) ∧
    (∃ b, good_defense row = .ok b ∧
      (b = true ↔ RankAtMost50Hit row "Opponent PTS Rank")) ∧
    (∃ b, defends_three_point row = .ok b ∧
      (b = true ↔ RankAtMost50Hit row "Opponent 3P% Rank")) ∧
    (∃ b, good_free_throw_team row = .ok b ∧
      (b = true ↔ RankAtMost50Hit row "FT% Rank")) ∧
    is_good_scoring_team [("PTS Rank", .vStr "50")] = .ok true ∧
    is_good_scoring_team [("PTS Rank", .vStr "51")] = .ok false ∧
    is_good_scoring_team [("PTS Rank", .vStr "abc")] = .ok false ∧
    is_good_scoring_team [] = .ok false :=
  ⟨rank50_spec _ row h1, rank50_spec _ row h2, rank50_spec _ row h3,
   rank50_spec _ row h4, rank50_spec _ row h5, rank50_spec _ row h6,
   rank50_spec _ row h7, rfl, rfl, rfl, rfl⟩

/-- Witness for C4 at a concrete all-string row. -/
theorem rank_thresholds_C4_witness :
    (∃ b, is_good_scoring_team [("PTS Rank", .vStr "50"),
        ("Opponent TOV Rank", .vStr "51"), ("3P Rank", .vStr "abc"),
        ("ORB Rank", .vStr "12"), ("Opponent PTS Rank", .vStr "1"),
        ("Opponent 3P% Rank", .vStr "50"), ("FT% Rank", .vStr "7")] = .ok b ∧
      (b = true ↔ RankAtMost50Hit [("PTS Rank", .vStr "50"),
        ("Opponent TOV Rank", .vStr "51"), ("3P Rank", .vStr "abc"),
        ("ORB Rank", .vStr "12"), ("Opponent PTS Rank", .vStr "1"),
        ("Opponent 3P% Rank", .vStr "50"), ("FT% Rank", .vStr "7")]
          "PTS Rank")) ∧
    (∃ b, forces_turnovers [("PTS Rank", .vStr "50"),
        ("Opponent TOV Rank", .vStr "51"), ("3P Rank", .vStr "abc"),
        ("ORB Rank", .vStr "12"), ("Opponent PTS Rank", .vStr "1"),
        ("Opponent 3P% Rank", .vStr "50"), ("FT% Rank", .vStr "7")] = .ok b ∧
      (b = true ↔ RankAtMost50Hit [("PTS Rank", .vStr "50"),
        ("Opponent TOV Rank", .vStr "51"), ("3P Rank", .vStr "abc"),
        ("ORB Rank", .vStr "12"), ("Opponent PTS Rank", .vStr "1"),
        ("Opponent 3P% Rank", .vStr "50"), ("FT% Rank", .vStr "7")]
          "Opponent TOV Rank")) ∧
    (∃ b, high_volume_three_point_team [("PTS Rank", .vStr "50"),
        ("Opponent TOV Rank", .vStr "51"), ("3P Rank", .vStr "abc"),
        ("ORB Rank", .vStr "12"), ("Opponent PTS Rank", .vStr "1"),
        ("Opponent 3P% Rank", .vStr "50"), ("FT% Rank", .vStr "7")] = .ok b ∧
      (b = true ↔ RankAtMost50Hit [("PTS Rank", .vStr "50"),
        ("Opponent TOV Rank", .vStr "51"), ("3P Rank", .vStr "abc"),
        ("ORB Rank", .vStr "12"), ("Opponent PTS Rank", .vStr "1"),
        ("Opponent 3P% Rank", .vStr "50"), ("FT% Rank", .vStr "7")]
          "3P Rank")) ∧
    (∃ b, elite_offensive_rebounding [("PTS Rank", .vStr "50"),
        ("Opponent TOV Rank", .vStr "51"), ("3P Rank", .vStr "abc"),
        ("ORB Rank", .vStr "12"), ("Opponent PTS Rank", .vStr "1"),
        ("Opponent 3P% Rank", .vStr "50"), ("FT% Rank", .vStr "7")] = .ok b ∧
      (b = true ↔ RankAtMost50Hit [("PTS Rank", .vStr "50"),
        ("Opponent TOV Rank", .vStr "51"), ("3P Rank", .vStr "abc"),
        ("ORB Rank", .vStr "12"), ("Opponent PTS Rank", .vStr "1"),
        ("Opponent 3P% Rank", .vStr "50"), ("FT% Rank", .vStr "7")]
          "ORB Rank")) ∧
    (∃ b, good_defense [("PTS Rank", .vStr "50"),
        ("Opponent TOV Rank", .vStr "51"), ("3P Rank", .vStr "abc"),
        ("ORB Rank", .vStr "12"), ("Opponent PTS Rank", .vStr "1"),
        ("Opponent 3P% Rank", .vStr "50"), ("FT% Rank", .vStr "7")] = .ok b ∧
      (b = true ↔ RankAtMost50Hit [("PTS Rank", .vStr "50"),
        ("Opponent TOV Rank", .vStr "51"), ("3P Rank", .vStr "abc"),
        ("ORB Rank", .vStr "12"), ("Opponent PTS Rank", .vStr "1"),
        ("Opponent 3P% Rank", .vStr "50"), ("FT% Rank", .vStr "7")]
          "Opponent PTS Rank")) ∧
    (∃ b, defends_three_point [("PTS Rank", .vStr "50"),
        ("Opponent TOV Rank", .vStr "51"), ("3P Rank", .vStr "abc"),
        ("ORB Rank", .vStr "12"), ("Opponent PTS Rank", .vStr "1"),
        ("Opponent 3P% Rank", .vStr "50"), ("FT% Rank", .vStr "7")] = .ok b ∧
      (b = true ↔ RankAtMost50Hit [("PTS Rank", .vStr "50"),
        ("Opponent TOV Rank", .vStr "51"), ("3P Rank", .vStr "abc"),
        ("ORB Rank", .vStr "12"), ("Opponent PTS Rank", .vStr "1"),
        ("Opponent 3P% Rank", .vStr "50"), ("FT% Rank", .vStr "7")]
          "Opponent 3P% Rank")) ∧
    (∃ b, good_free_throw_team [("PTS Rank", .vStr "50"),
        ("Opponent TOV Rank", .vStr "51"), ("3P Rank", .vStr "abc"),
        ("ORB Rank", .vStr "12"), ("Opponent PTS Rank", .vStr "1"),
        ("Opponent 3P% Rank", .vStr "50"), ("FT% Rank", .vStr "7")] = .ok b ∧
      (b = true ↔ RankAtMost50Hit [("PTS Rank", .vStr "50"),
        ("Opponent TOV Rank", .vStr "51"), ("3P Rank", .vStr "abc"),
        ("ORB Rank", .vStr "12"), ("Opponent PTS Rank", .vStr "1"),
        ("Opponent 3P% Rank", .vStr "50"), ("FT% Rank", .vStr "7")]
          "FT% Rank")) ∧
    is_good_scoring_team [("PTS Rank", .vStr "50")] = .ok true ∧
    is_good_scoring_team [("PTS Rank", .vStr "51")] = .ok false ∧
    is_good_scoring_team [("PTS Rank", .vStr "abc")] = .ok false ∧
    is_good_scoring_team [] = .ok false :=
  rank_thresholds_C4 [("PTS Rank", .vStr "50"),
    ("Opponent TOV Rank", .vStr "51"), ("3P Rank", .vStr "abc"),
    ("ORB Rank", .vStr "12"), ("Opponent PTS Rank", .vStr "1"),
    ("Opponent 3P% Rank", .vStr "50"), ("FT% Rank", .vStr "7")]
    rfl rfl rfl rfl rfl rfl rfl

/-- Claim C5: on any row whose own-turnover cell is a string, `nan`, or
absent, Protects the Ball answers a definite boolean that is true
exactly when the `TOV Rank` field parses as an integer of at least 300
(the inverted rank direction); turnover rank "300" answers true, "299"
false. -/
theorem protects_inverted_C5 (row : Row)
    (h : cellRowOkB row "TOV Rank" = true) :
    (∃ b, protects_basketball row = .ok b ∧ (b = true ↔ TovAtLeast300Hit row)) ∧
    protects_basketball [("TOV Rank", .vStr "300")] = .ok true ∧
    protects_basketball [("TOV Rank", .vStr "299")] = .ok false ∧
    protects_basketball [("TOV Rank", .vStr "abc")] = .ok false ∧
    protects_basketball [] = .ok false :=
  ⟨protects_spec row h, rfl, rfl, rfl, rfl⟩

/-- Witness for C5 at a concrete row. -/
theorem protects_inverted_C5_witness :
    (∃ b, protects_basketball [("TOV Rank", .vStr "300")] = .ok b ∧
      (b = true ↔ TovAtLeast300Hit [("TOV Rank", .vStr "300")])) ∧
    protects_basketball [("TOV Rank", .vStr "300")] = .ok true ∧
    protects_basketball [("TOV Rank", .vStr "299")] = .ok false ∧
    protects_basketball [("TOV Rank", .vStr "abc")] = .ok false ∧
    protects_basketball [] = .ok false :=
  protects_inverted_C5 [("TOV Rank", .vStr "300")] rfl

/-- Claim C10: the rank-threshold predicates perform no positivity or
range validation: whenever the rank cell is a string that `int()`
accepts with value at most 50 — including zero, negative values and
strings with surrounding whitespace — the predicate answers true. -/
theorem rank_no_range_validation_C10 (row : Row) (s : String) (n : Int)
    (hg : rowGet row "PTS Rank" = .ok (.vStr s))
    (hp : intOfString? s.data = some n) (hn : n ≤ 50) :
    is_good_scoring_team row = .ok true ∧
    is_good_scoring_team [("PTS Rank", .vStr "0")] = .ok true ∧
    is_good_scoring_team [("PTS Rank", .vStr "-5")] = .ok true ∧
    is_good_scoring_team [("PTS Rank", .vStr " 42 ")] = .ok true := by
  refine ⟨?_, rfl, rfl, rfl⟩
  show rankAtMost50 "PTS Rank" row = .ok true
  unfold rankAtMost50
  rw [hg]
  simp [bind_ok_except, pyInt, hp, tryFalse, pure_ok_except, hn]

/-- Witness for C10 at the whitespace-and-negative sample " -5 ". -/
theorem rank_no_range_validation_C10_witness :
    is_good_scoring_team [("PTS Rank", .vStr " -5 ")] = .ok true ∧
    is_good_scoring_team [("PTS Rank", .vStr "0")] = .ok true ∧
    is_good_scoring_team [("PTS Rank", .vStr "-5")] = .ok true ∧
    is_good_scoring_team [("PTS Rank", .vStr " 42 ")] = .ok true :=
  rank_no_range_validation_C10 [("PTS Rank", .vStr " -5 ")] " -5 " (-5)
    rfl rfl (by decide)

/-- Claim C1 fails on the code: the predicates are not total on
arbitrary rows.  On a row whose roster cell is the string "5" — whose
textual literal parses to something other than a list of records — all
four roster predicates evaluate `len` on an `int`, raising `TypeError`,
which their `except (KeyError, AttributeError)` clause does not catch;
a missing roster cell (the pandas `nan`) raises the same way, since
`bool(nan)` is truthy and `len` is undefined on a float.  The rank
predicates, by contrast, do stay total on such a row. -/
theorem roster_predicates_raise_C1 :
    has_experienced_core [("year", .vInt 2015), ("team", .vStr "X"),
      ("roster", .vStr "5")] = .error .typeError ∧
    has_top_recruits [("year", .vInt 2015), ("team", .vStr "X"),
      ("roster", .vStr "5")] = .error .typeError ∧
    has_scoring_guard [("year", .vInt 2015), ("team", .vStr "X"),
      ("roster", .vStr "5")] = .error .typeError ∧
    has_size [("year", .vInt 2015), ("team", .vStr "X"),
      ("roster", .vStr "5")] = .error .typeError ∧
    has_experienced_core [("roster", .vNan)] = .error .typeError ∧
    is_good_scoring_team [("year", .vInt 2015), ("team", .vStr "X"),
      ("roster", .vStr "5")] = .ok false :=
  ⟨rfl, rfl, rfl, rfl, rfl, rfl⟩

/-- Claim C2 fails on the code: `parse_roster` checks no literal shape.
The string "5" parses successfully, so the integer 5 is returned
unchanged — not the empty sequence promised for a wrong-shape literal
(and promised by the function's own `List[Dict]` return annotation and
docstring).  Malformed syntax does yield the empty list, and a
non-string input passes through unchanged. -/
theorem parse_roster_shape_C2 :
    parse_roster (.vStr "5") = .vInt 5 ∧
    PyVal.vInt 5 ≠ PyVal.vList [] ∧
    parse_roster (.vStr "[") = .vList [] ∧
    parse_roster (.vStr "1 2") = .vList [] ∧
    parse_roster (.vInt 7) = .vInt 7 ∧
    parse_roster .vNan = .vNan :=
  ⟨rfl, by simp, rfl, rfl, rfl, rfl⟩

/-- Claim C3 fails on the code: the evaluation driver is not total row
for row.  On a table containing a row whose roster cell holds the
malformed value "5", the `TypeError` raised inside `has_experienced_core`
propagates out of `DataFrame.apply`, and `analyze_teams` produces no
output table at all — every row is lost, not carried through.  On a
table free of such cells the driver does emit exactly one row per input
row, in order, with `year` and `team` carried through, as the last two
conjuncts show on a two-row table. -/
theorem analyze_teams_raises_C3 :
    analyze_teams [[("year", .vInt 2015), ("team", .vStr "Duke"),
      ("PTS Rank", .vStr "3"), ("roster", .vStr "5")]] = .error .typeError ∧
    (analyze_teams [[("year", .vInt 2015), ("team", .vStr "Duke"),
        ("PTS Rank", .vStr "3"), ("roster", .vStr "[]")],
      [("year", .vInt 2016), ("team", .vStr "Nova"),
        ("PTS Rank", .vStr "99"), ("roster", .vStr "[]")]]).toOption.map
      List.length = some 2 ∧
    (analyze_teams [[("year", .vInt 2015), ("team", .vStr "Duke"),
        ("PTS Rank", .vStr "3"), ("roster", .vStr "[]")],
      [("year", .vInt 2016), ("team", .vStr "Nova"),
        ("PTS Rank", .vStr "99"), ("roster", .vStr "[]")]]).toOption.map
      (fun out => out.map (fun r => (r.year, r.team))) =
      some [(.vInt 2015, .vStr "Duke"), (.vInt 2016, .vStr "Nova")] :=
  ⟨rfl, rfl, rfl⟩

/-- What each roster predicate computes once the roster cell holds (or
parses to) a list `l`: `False` for a short list, otherwise the wrapped
loop body on the first five entries. -/
lemma rosterPred_list (body : List PyVal → Except PyErr Bool) {row : Row}
    {v : PyVal} {l : List PyVal} (hg : rowGet row "roster" = .ok v)
    (hp : parse_roster v = .vList l) :
    rosterPred body row =
      if l.length < 5 then .ok false
      else tryFalse rosterErrs (body (l.take 5)) := by
  unfold rosterPred
  simp only [hg, bind_ok_except, hp]
  cases l with
  | nil => simp [pyTruthy, tryFalse, pure_ok_except]
  | cons x xs =>
    by_cases h5 : (x :: xs).length < 5
    · have h5a : xs.length + 1 < 5 := by simpa using h5
      simp [pyTruthy, pyLen, bind_ok_except, h5a, tryFalse, pure_ok_except]
    · have h5a : ¬ xs.length + 1 < 5 := by simpa using h5
      simp [pyTruthy, pyLen, bind_ok_except, h5a, pySlice5, pyIter]

/-- A parsed roster list with fewer than five entries makes every
roster predicate answer `False`, whatever the entries hold. -/
lemma rosterPred_short (body : List PyVal → Except PyErr Bool) {row : Row}
    {v : PyVal} {l : List PyVal} (hg : rowGet row "roster" = .ok v)
    (hp : parse_roster v = .vList l) (hlen : l.length < 5) :
    rosterPred body row = .ok false := by
  rw [rosterPred_list body hg hp, if_pos hlen]

/-- Two rows whose parsed roster lists agree on their first five
entries get the same answer from every roster predicate. -/
lemma rosterPred_take5_eq (body : List PyVal → Except PyErr Bool)
    {r1 r2 : Row} {v1 v2 : PyVal} {l1 l2 : List PyVal}
    (hg1 : rowGet r1 "roster" = .ok v1) (hg2 : rowGet r2 "roster" = .ok v2)
    (hp1 : parse_roster v1 = .vList l1) (hp2 : parse_roster v2 = .vList l2)
    (ht : l1.take 5 = l2.take 5) :
    rosterPred body r1 = rosterPred body r2 := by
  rw [rosterPred_list body hg1 hp1, rosterPred_list body hg2 hp2, ht]
  have hlen : (l1.take 5).length = (l2.take 5).length := by rw [ht]
  simp only [List.length_take] at hlen
  by_cases h : l1.length < 5
  · have h2 : l2.length < 5 := by omega
    rw [if_pos h, if_pos h2]
  · have h2 : ¬ l2.length < 5 := by omega
    rw [if_neg h, if_neg h2]

/-- A well-formed roster entry, with all the fields the predicates
read. -/
def sampleEntry (cls pos h rsci pts : String) : PyVal :=
  .vDict [("class", .vStr cls), ("pos", .vStr pos), ("height", .vStr h),
    ("rsci_rank", .vStr rsci), ("stats_summary", .vStr pts)]

/-- Four well-formed entries — one short of a full starting five. -/
def rosterFour : List PyVal :=
  [sampleEntry "SR" "G" "6-8" "1" "20.0 Pts",
   sampleEntry "SR" "G" "6-9" "2" "18.0 Pts",
   sampleEntry "JR" "F" "6-10" "3" "12.0 Pts",
   sampleEntry "SO" "C" "7-0" "4" "10.0 Pts"]

/-- Five well-formed entries. -/
def rosterFive : List PyVal :=
  rosterFour ++ [sampleEntry "FR" "PG" "6-1" "5" "16.2 Pts"]

/-- The same five entries followed by junk that the predicates must
never look at. -/
def rosterSix : List PyVal := rosterFive ++ [.vInt 0]

/-- A row holding just a structured roster cell. -/
def rowOf (l : List PyVal) : Row := [("roster", .vList l)]

/-- Claim C6: each of the four roster predicates answers `False`
whenever the roster cell parses to a list of fewer than five entries,
whatever those entries hold; and on rosters that parse to lists, its
answer depends only on the first five entries — two rows whose parsed
rosters agree on their first five entries always get the same answer. -/
theorem roster_first_five_C6 :
    (∀ (row : Row) (v : PyVal) (l : List PyVal),
      rowGet row "roster" = .ok v → parse_roster v = .vList l →
      l.length < 5 →
      has_experienced_core row = .ok false ∧
      has_top_recruits row = .ok false ∧
      has_scoring_guard row = .ok false ∧
      has_size row = .ok false) ∧
    (∀ (r1 r2 : Row) (v1 v2 : PyVal) (l1 l2 : List PyVal),
      rowGet r1 "roster" = .ok v1 → rowGet r2 "roster" = .ok v2 →
      parse_roster v1 = .vList l1 → parse_roster v2 = .vList l2 →
      l1.take 5 = l2.take 5 →
      has_experienced_core r1 = has_experienced_core r2 ∧
      has_top_recruits r1 = has_top_recruits r2 ∧
      has_scoring_guard r1 = has_scoring_guard r2 ∧
      has_size r1 = has_size r2) := by
  constructor
  · intro row v l hg hp hlen
    exact ⟨rosterPred_short expCoreBody hg hp hlen,
      rosterPred_short topRecruitsBody hg hp hlen,
      rosterPred_short scoringGuardLoop hg hp hlen,
      rosterPred_short sizeBody hg hp hlen⟩
  · intro r1 r2 v1 v2 l1 l2 hg1 hg2 hp1 hp2 ht
    exact ⟨rosterPred_take5_eq expCoreBody hg1 hg2 hp1 hp2 ht,
      rosterPred_take5_eq topRecruitsBody hg1 hg2 hp1 hp2 ht,
      rosterPred_take5_eq scoringGuardLoop hg1 hg2 hp1 hp2 ht,
      rosterPred_take5_eq sizeBody hg1 hg2 hp1 hp2 ht⟩

/-- Witness for C6: a four-entry well-formed roster answers `False`
everywhere, and a junk sixth entry changes no answer. -/
theorem roster_first_five_C6_witness :
    (has_experienced_core (rowOf rosterFour) = .ok false ∧
     has_top_recruits (rowOf rosterFour) = .ok false ∧
     has_scoring_guard (rowOf rosterFour) = .ok false ∧
     has_size (rowOf rosterFour) = .ok false) ∧
    (has_experienced_core (rowOf rosterFive) =
        has_experienced_core (rowOf rosterSix) ∧
     has_top_recruits (rowOf rosterFive) =
        has_top_recruits (rowOf rosterSix) ∧
     has_scoring_guard (rowOf rosterFive) =
        has_scoring_guard (rowOf rosterSix) ∧
     has_size (rowOf rosterFive) = has_size (rowOf rosterSix)) :=
  ⟨roster_first_five_C6.1 (rowOf rosterFour) (.vList rosterFour) rosterFour
      rfl rfl (by decide),
   roster_first_five_C6.2 (rowOf rosterFive) (rowOf rosterSix)
      (.vList rosterFive) (.vList rosterSix) rosterFive rosterSix
      rfl rfl rfl rfl rfl⟩

/-- Entry shape the Has Size loop never aborts on: a dict whose
`height`, when present, is a string (as every collector-produced entry
is). -/
def heightShapeOkB : PyVal → Bool
  | .vDict d =>
    match dictFind d "height" with
    | some (.vStr _) => true
    | none => true
    | some _ => false
  | _ => false

/-- A tall entry in the claim's sense: the entry's height string splits
on the dash into two integer parts worth at least 78 inches. -/
def tallEntryB (p : PyVal) : Bool :=
  match p with
  | .vDict d =>
    match dictFind d "height" with
    | some (.vStr h) =>
      match heightParse? h.data with
      | some t => decide ((78 : Int) ≤ t)
      | none => false
    | _ => false
  | _ => false

/-- The Has Size loop counts exactly the tall entries, skipping — not
aborting on — entries whose height is absent, empty, or fails to
split or parse, provided each entry is a dict with string-or-absent
height. -/
lemma sizeCount_spec (ps : List PyVal) (h : ps.all heightShapeOkB = true) :
    sizeCount ps = .ok (ps.countP tallEntryB) := by
  induction ps with
  | nil => rfl
  | cons p ps ih =>
    rw [List.all_cons, Bool.and_eq_true] at h
    obtain ⟨hp, hps⟩ := h
    have hrec := ih hps
    rw [List.countP_cons]
    cases p with
    | vDict d =>
      cases hfind : dictFind d "height" with
      | none =>
        have htall : tallEntryB (.vDict d) = false := by
          simp [tallEntryB, hfind]
        simp [sizeCount, pyGet, hfind, pyTruthy, bind_ok_except,
          pure_ok_except, hrec, htall]
      | some w =>
        cases w with
        | vStr hs =>
          by_cases hemp : hs.data.isEmpty = true
          · have hnil : hs.data = [] := by simpa using hemp
            have htall : tallEntryB (.vDict d) = false := by
              simp [tallEntryB, hfind, hnil, heightParse?, splitOnDash]
            simp [sizeCount, pyGet, hfind, pyTruthy, hemp, bind_ok_except,
              pure_ok_except, hrec, htall]
          · cases hhp : heightParse? hs.data with
            | none =>
              have htall : tallEntryB (.vDict d) = false := by
                simp [tallEntryB, hfind, hhp]
              simp [sizeCount, pyGet, hfind, pyTruthy, hemp, heightInches,
                hhp, bind_ok_except, pure_ok_except, hrec, htall]
            | some t =>
              have htall : tallEntryB (.vDict d) = decide ((78 : Int) ≤ t) := by
                simp [tallEntryB, hfind, hhp]
              by_cases h78 : (78 : Int) ≤ t
              · simp [sizeCount, pyGet, hfind, pyTruthy, hemp, heightInches,
                  hhp, bind_ok_except, pure_ok_except, hrec, htall, h78]
              · simp [sizeCount, pyGet, hfind, pyTruthy, hemp, heightInches,
                  hhp, bind_ok_except, pure_ok_except, hrec, htall, h78]
        | vInt n => simp [heightShapeOkB, hfind] at hp
        | vBool b => simp [heightShapeOkB, hfind] at hp
        | vNone => simp [heightShapeOkB, hfind] at hp
        | vNan => simp [heightShapeOkB, hfind] at hp
        | vList l2 => simp [heightShapeOkB, hfind] at hp
        | vDict d2 => simp [heightShapeOkB, hfind] at hp
    | vStr s => simp [heightShapeOkB] at hp
    | vInt n => simp [heightShapeOkB] at hp
    | vBool b => simp [heightShapeOkB] at hp
    | vNone => simp [heightShapeOkB] at hp
    | vNan => simp [heightShapeOkB] at hp
    | vList l2 => simp [heightShapeOkB] at hp

/-- An entry carrying just a height string. -/
def heightEntry (h : String) : PyVal := .vDict [("height", .vStr h)]

/-- The spec's Has Size sample: three of five heights at 78 inches or
more. -/
def rosterHeights : List PyVal :=
  [heightEntry "6-8", heightEntry "6-9", heightEntry "7-0",
   heightEntry "5-9", heightEntry "6-1"]

/-- The same sample with one unparsable height, which must be skipped
without aborting the evaluation of the remaining four. -/
def rosterHeightsNA : List PyVal :=
  [heightEntry "6-8", heightEntry "6-9", heightEntry "7-0",
   heightEntry "N/A", heightEntry "6-1"]

/-- Claim C7: on a roster parsing to a list of at least five entries,
each a dict whose height (if any) is a string, Has Size answers a
definite boolean that is true exactly when at least 3 of the first 5
entries have a height string splitting on the dash into two integer
parts worth at least 78 inches; entries with empty or unparsable
heights are merely not counted.  The two sample rosters (one with an
"N/A" height skipped) both answer Yes. -/
theorem has_size_spec_C7 (row : Row) (v : PyVal) (l : List PyVal)
    (hg : rowGet row "roster" = .ok v) (hp : parse_roster v = .vList l)
    (hlen : 5 ≤ l.length) (hsh : (l.take 5).all heightShapeOkB = true) :
    (∃ b, has_size row = .ok b ∧
      (b = true ↔ 3 ≤ (l.take 5).countP tallEntryB)) ∧
    has_size (rowOf rosterHeights) = .ok true ∧
    has_size (rowOf rosterHeightsNA) = .ok true := by
  refine ⟨?_, rfl, rfl⟩
  have hlist := rosterPred_list sizeBody hg hp
  rw [if_neg (by omega)] at hlist
  refine ⟨decide (3 ≤ (l.take 5).countP tallEntryB), ?_, by simp⟩
  show rosterPred sizeBody row = _
  rw [hlist]
  unfold sizeBody
  rw [sizeCount_spec (l.take 5) hsh]
  simp [bind_ok_except, pure_ok_except, tryFalse]

/-- Witness for C7 at the spec's sample roster. -/
theorem has_size_spec_C7_witness :
    (∃ b, has_size (rowOf rosterHeights) = .ok b ∧
      (b = true ↔ 3 ≤ (rosterHeights.take 5).countP tallEntryB)) ∧
    has_size (rowOf rosterHeights) = .ok true ∧
    has_size (rowOf rosterHeightsNA) = .ok true :=
  has_size_spec_C7 (rowOf rosterHeights) (.vList rosterHeights) rosterHeights
    rfl rfl (by decide) rfl

/-- The exact rational value of the matched decimal points figure
`ip.frac` with `k` fractional digits. -/
def pointsVal (ip frac k : Nat) : ℚ :=
  (ip : ℚ) + (frac : ℚ) / (10 : ℚ) ^ k

/-- The scaled-integer comparison used in the code model agrees with
the exact rational comparison against 15. -/
lemma ptsGt15_iff (ip frac k : Nat) :
    ptsGt15 ip frac k = true ↔ 15 < pointsVal ip frac k := by
  unfold ptsGt15 pointsVal
  rw [decide_eq_true_eq]
  have hpow : (0 : ℚ) < (10 : ℚ) ^ k := by positivity
  have hne : ((10 : ℚ) ^ k) ≠ 0 := ne_of_gt hpow
  constructor
  · intro h
    have h2 : ((15 * 10 ^ k : ℕ) : ℚ) < ((ip * 10 ^ k + frac : ℕ) : ℚ) := by
      exact_mod_cast h
    push_cast at h2
    have h3 : (15 : ℚ) * 10 ^ k < ((ip : ℚ) + (frac : ℚ) / 10 ^ k) * 10 ^ k := by
      rw [add_mul, div_mul_cancel₀ _ hne]
      exact h2
    exact (mul_lt_mul_right hpow).mp h3
  · intro h
    have h3 : (15 : ℚ) * 10 ^ k < ((ip : ℚ) + (frac : ℚ) / 10 ^ k) * 10 ^ k :=
      (mul_lt_mul_right hpow).mpr h
    rw [add_mul, div_mul_cancel₀ _ hne] at h3
    exact_mod_cast h3

/-- Entry shape the Has Scoring Guard loop never aborts on: a dict
whose `stats_summary`, when the entry is in a guard position, is a
string or absent. -/
def guardShapeOkB : PyVal → Bool
  | .vDict d =>
    if isGuardStr ((dictFind d "pos").getD (.vStr "")) then
      match dictFind d "stats_summary" with
      | some (.vStr _) => true
      | none => true
      | some _ => false
    else true
  | _ => false

/-- A hit in the claim's sense, boolean form: a guard-position entry
whose stats summary matches a leading points figure above 15. -/
def scoringGuardHitB (p : PyVal) : Bool :=
  match p with
  | .vDict d =>
    isGuardStr ((dictFind d "pos").getD (.vStr "")) &&
    (match dictFind d "stats_summary" with
     | some (.vStr s) =>
       match ptsMatch s.data with
       | some (ip, frac, k) => ptsGt15 ip frac k
       | none => false
     | _ => false)
  | _ => false

/-- A hit in the claim's sense, stated with the exact rational value of
the parsed points figure: a guard-position entry whose stats summary
matches a leading points figure strictly greater than 15. -/
def GuardEntryOver15 (p : PyVal) : Prop :=
  ∃ d, p = .vDict d ∧
    isGuardStr ((dictFind d "pos").getD (.vStr "")) = true ∧
    ∃ s ip frac k, dictFind d "stats_summary" = some (.vStr s) ∧
      ptsMatch s.data = some (ip, frac, k) ∧ 15 < pointsVal ip frac k

lemma scoringGuardHitB_iff (p : PyVal) :
    scoringGuardHitB p = true ↔ GuardEntryOver15 p := by
  cases p with
  | vDict d =>
    constructor
    · intro h
      rw [scoringGuardHitB, Bool.and_eq_true] at h
      obtain ⟨hpos, hrest⟩ := h
      refine ⟨d, rfl, hpos, ?_⟩
      cases hfind : dictFind d "stats_summary" with
      | none => rw [hfind] at hrest; exact absurd hrest (by simp)
      | some w =>
        cases w with
        | vStr s =>
          rw [hfind] at hrest
          have hrest2 : (match ptsMatch s.data with
              | some (ip, frac, k) => ptsGt15 ip frac k
              | none => false) = true := hrest
          cases hm : ptsMatch s.data with
          | none => rw [hm] at hrest2; exact absurd hrest2 (by simp)
          | some t =>
            obtain ⟨ip, frac, k⟩ := t
            rw [hm] at hrest2
            exact ⟨s, ip, frac, k, rfl, hm, (ptsGt15_iff ip frac k).mp hrest2⟩
        | vInt n => rw [hfind] at hrest; exact absurd hrest (by simp)
        | vBool b => rw [hfind] at hrest; exact absurd hrest (by simp)
        | vNone => rw [hfind] at hrest; exact absurd hrest (by simp)
        | vNan => rw [hfind] at hrest; exact absurd hrest (by simp)
        | vList l2 => rw [hfind] at hrest; exact absurd hrest (by simp)
        | vDict d2 => rw [hfind] at hrest; exact absurd hrest (by simp)
    · rintro ⟨d2, hd2, hpos, s, ip, frac, k, hfind, hm, hq⟩
      injection hd2 with hd3
      subst hd3
      rw [scoringGuardHitB, Bool.and_eq_true]
      refine ⟨hpos, ?_⟩
      rw [hfind]
      show (match ptsMatch s.data with
        | some (ip, frac, k) => ptsGt15 ip frac k
        | none => false) = true
      rw [hm]
      exact (ptsGt15_iff ip frac k).mpr hq
  | vStr s => simp [scoringGuardHitB, GuardEntryOver15]
  | vInt n => simp [scoringGuardHitB, GuardEntryOver15]
  | vBool b => simp [scoringGuardHitB, GuardEntryOver15]
  | vNone => simp [scoringGuardHitB, GuardEntryOver15]
  | vNan => simp [scoringGuardHitB, GuardEntryOver15]
  | vList l2 => simp [scoringGuardHitB, GuardEntryOver15]

/-- The Has Scoring Guard loop computes the disjunction of hits over
its entries, provided each entry is a dict whose summary (on guard
entries) is a string or absent. -/
lemma scoringGuardLoop_spec (ps : List PyVal)
    (h : ps.all guardShapeOkB = true) :
    scoringGuardLoop ps = .ok (ps.any scoringGuardHitB) := by
  induction ps with
  | nil => rfl
  | cons p ps ih =>
    rw [List.all_cons, Bool.and_eq_true] at h
    obtain ⟨hp, hps⟩ := h
    have hrec := ih hps
    rw [List.any_cons]
    cases p with
    | vDict d =>
      by_cases hpos : isGuardStr ((dictFind d "pos").getD (.vStr "")) = true
      · cases hfind : dictFind d "stats_summary" with
        | none =>
          have hhit : scoringGuardHitB (.vDict d) = false := by
            simp [scoringGuardHitB, hfind]
          simp [scoringGuardLoop, pyGet, hpos, hfind, pyTruthy,
            bind_ok_except, pure_ok_except, hrec, hhit]
        | some w =>
          cases w with
          | vStr s =>
            by_cases hemp : s.data.isEmpty = true
            · have hnil : s.data = [] := by simpa using hemp
              have hhit : scoringGuardHitB (.vDict d) = false := by
                simp [scoringGuardHitB, hfind, hnil, ptsMatch]
              simp [scoringGuardLoop, pyGet, hpos, hfind, pyTruthy, hemp,
                bind_ok_except, pure_ok_except, hrec, hhit]
            · cases hm : ptsMatch s.data with
              | none =>
                have hhit : scoringGuardHitB (.vDict d) = false := by
                  simp [scoringGuardHitB, hfind, hm]
                simp [scoringGuardLoop, pyGet, hpos, hfind, pyTruthy, hemp,
                  rePtsMatch, hm, bind_ok_except, pure_ok_except, hrec, hhit]
              | some t =>
                obtain ⟨ip, frac, k⟩ := t
                have hhit : scoringGuardHitB (.vDict d) = ptsGt15 ip frac k := by
                  simp [scoringGuardHitB, hfind, hm, hpos]
                by_cases hgt : ptsGt15 ip frac k = true
                · simp [scoringGuardLoop, pyGet, hpos, hfind, pyTruthy, hemp,
                    rePtsMatch, hm, bind_ok_except, pure_ok_except, hhit, hgt]
                · simp [scoringGuardLoop, pyGet, hpos, hfind, pyTruthy, hemp,
                    rePtsMatch, hm, bind_ok_except, pure_ok_except, hrec, hhit,
                    hgt]
          | vInt n => simp [guardShapeOkB, hpos, hfind] at hp
          | vBool b => simp [guardShapeOkB, hpos, hfind] at hp
          | vNone => simp [guardShapeOkB, hpos, hfind] at hp
          | vNan => simp [guardShapeOkB, hpos, hfind] at hp
          | vList l2 => simp [guardShapeOkB, hpos, hfind] at hp
          | vDict d2 => simp [guardShapeOkB, hpos, hfind] at hp
      · have hhit : scoringGuardHitB (.vDict d) = false := by
          simp [scoringGuardHitB, hpos]
        simp [scoringGuardLoop, pyGet, hpos, bind_ok_except, pure_ok_except,
          hrec, hhit]
    | vStr s => simp [guardShapeOkB] at hp
    | vInt n => simp [guardShapeOkB] at hp
    | vBool b => simp [guardShapeOkB] at hp
    | vNone => simp [guardShapeOkB] at hp
    | vNan => simp [guardShapeOkB] at hp
    | vList l2 => simp [guardShapeOkB] at hp

/-- The spec's Has Scoring Guard positive sample: a point guard at
16.2 points among five entries. -/
def rosterGuard162 : List PyVal :=
  [sampleEntry "FR" "PG" "6-1" "" "16.2 Pts, 3 Ast",
   sampleEntry "SR" "F" "6-8" "" "12.0 Pts",
   sampleEntry "SR" "F" "6-9" "" "11.0 Pts",
   sampleEntry "JR" "C" "7-0" "" "10.0 Pts",
   sampleEntry "SO" "F" "6-10" "" "9.0 Pts"]

/-- The negative sample: the same guard at 14.9 points. -/
def rosterGuard149 : List PyVal :=
  [sampleEntry "FR" "PG" "6-1" "" "14.9 Pts",
   sampleEntry "SR" "F" "6-8" "" "12.0 Pts",
   sampleEntry "SR" "F" "6-9" "" "11.0 Pts",
   sampleEntry "JR" "C" "7-0" "" "10.0 Pts",
   sampleEntry "SO" "F" "6-10" "" "9.0 Pts"]

/-- Claim C8: on a roster parsing to a list of at least five entries of
guard-safe shape, Has Scoring Guard answers a definite boolean that is
true exactly when some entry among the first five is a guard-position
entry whose stats summary matches a leading points figure strictly
greater than 15; the 16.2-point guard sample answers Yes, the
14.9-point one No. -/
theorem has_scoring_guard_spec_C8 (row : Row) (v : PyVal) (l : List PyVal)
    (hg : rowGet row "roster" = .ok v) (hp : parse_roster v = .vList l)
    (hlen : 5 ≤ l.length) (hsh : (l.take 5).all guardShapeOkB = true) :
    (∃ b, has_scoring_guard row = .ok b ∧
      (b = true ↔ ∃ p ∈ l.take 5, GuardEntryOver15 p)) ∧
    has_scoring_guard (rowOf rosterGuard162) = .ok true ∧
    has_scoring_guard (rowOf rosterGuard149) = .ok false := by
  refine ⟨?_, rfl, rfl⟩
  have hlist := rosterPred_list scoringGuardLoop hg hp
  rw [if_neg (by omega)] at hlist
  refine ⟨(l.take 5).any scoringGuardHitB, ?_, ?_⟩
  · show rosterPred scoringGuardLoop row = _
    rw [hlist, scoringGuardLoop_spec (l.take 5) hsh]
    rfl
  · rw [List.any_eq_true]
    simp only [scoringGuardHitB_iff]

/-- Witness for C8 at the 16.2-point guard sample. -/
theorem has_scoring_guard_spec_C8_witness :
    (∃ b, has_scoring_guard (rowOf rosterGuard162) = .ok b ∧
      (b = true ↔ ∃ p ∈ rosterGuard162.take 5, GuardEntryOver15 p)) ∧
    has_scoring_guard (rowOf rosterGuard162) = .ok true ∧
    has_scoring_guard (rowOf rosterGuard149) = .ok false :=
  has_scoring_guard_spec_C8 (rowOf rosterGuard162) (.vList rosterGuard162)
    rosterGuard162 rfl rfl (by decide) rfl

/-- The entry is a dict whose position is exactly one of the guard
codes "G", "PG", "SG". -/
def posIsGuardB (p : PyVal) : Bool :=
  match p with
  | .vDict d => isGuardStr ((dictFind d "pos").getD (.vStr ""))
  | _ => false

/-- With no guard-position entry the Has Scoring Guard loop either
finishes with `False` or aborts with `AttributeError` on a non-dict
entry; it never answers `True`. -/
lemma scoringGuardLoop_noGuard (ps : List PyVal)
    (h : ∀ p ∈ ps, posIsGuardB p = false) :
    scoringGuardLoop ps = .ok false ∨
      scoringGuardLoop ps = .error .attributeError := by
  induction ps with
  | nil => exact Or.inl rfl
  | cons p ps ih =>
    have hp := h p (List.mem_cons_self p ps)
    have hps : ∀ q ∈ ps, posIsGuardB q = false :=
      fun q hq => h q (List.mem_cons_of_mem p hq)
    cases p with
    | vDict d =>
      have hpos : isGuardStr ((dictFind d "pos").getD (.vStr "")) = false := hp
      rcases ih hps with h1 | h1
      · left
        simp [scoringGuardLoop, pyGet, hpos, bind_ok_except, h1]
      · right
        simp [scoringGuardLoop, pyGet, hpos, bind_ok_except, h1]
    | vStr s => right; rfl
    | vInt n => right; rfl
    | vBool b => right; rfl
    | vNone => right; rfl
    | vNan => right; rfl
    | vList l2 => right; rfl

/-- A roster of non-guard positions with big scoring figures. -/
def rosterNoGuardPos : List PyVal :=
  [sampleEntry "SR" "G/F" "6-6" "" "30.0 Pts",
   sampleEntry "SR" "Guard" "6-3" "" "25.0 Pts",
   sampleEntry "JR" "F" "6-8" "" "12.0 Pts",
   sampleEntry "SO" "C" "7-0" "" "10.0 Pts",
   sampleEntry "FR" "F" "6-9" "" "9.0 Pts"]

/-- Claim C9: Has Scoring Guard counts an entry as a guard only when
its position field is exactly "G", "PG" or "SG".  On any roster that
parses to a list none of whose first five entries carries one of those
exact position strings, the predicate answers `False`, however large
the entries' points figures; in particular positions "G/F" and "Guard"
with 30.0 and 25.0 points answer No. -/
theorem guard_positions_exact_C9 (row : Row) (v : PyVal) (l : List PyVal)
    (hg : rowGet row "roster" = .ok v) (hp : parse_roster v = .vList l)
    (hng : ∀ p ∈ l.take 5, posIsGuardB p = false) :
    has_scoring_guard row = .ok false ∧
    has_scoring_guard (rowOf rosterNoGuardPos) = .ok false := by
  refine ⟨?_, rfl⟩
  by_cases h5 : l.length < 5
  · exact rosterPred_short scoringGuardLoop hg hp h5
  · have hlist := rosterPred_list scoringGuardLoop hg hp
    rw [if_neg h5] at hlist
    show rosterPred scoringGuardLoop row = _
    rw [hlist]
    rcases scoringGuardLoop_noGuard (l.take 5) hng with h1 | h1 <;> rw [h1] <;> rfl

/-- Witness for C9 at the G/F-and-Guard sample roster. -/
theorem guard_positions_exact_C9_witness :
    has_scoring_guard (rowOf rosterNoGuardPos) = .ok false ∧
    has_scoring_guard (rowOf rosterNoGuardPos) = .ok false :=
  guard_positions_exact_C9 (rowOf rosterNoGuardPos) (.vList rosterNoGuardPos)
    rosterNoGuardPos rfl rfl (by decide)

end MarchMadness
